import Mathlib

/-!
Verification of the Telegram-IMDbot alert core (utils/movie.py, utils/db.py).

The development shallowly embeds the date resolver (regex validation plus
datetime.strptime), the sqlite-backed alert store (utils/db.py), and the
alert engine (class Alert in utils/movie.py).  External collaborators
(the IMDb metadata provider and the wall clock) are passed in explicitly
through an Env structure; Python exceptions are modelled with Option so
that a raise is visible as a none result at the boundary where the
decorator _catch_and_log would turn it into the string
"Unexpected error occured.".
-/

namespace IMDbot

/-- A calendar date, as carried by a Python datetime (year, month, day). -/
structure Date where
  year : Nat
  month : Nat
  day : Nat
deriving DecidableEq

/-- A Python datetime: a calendar date plus a time-of-day component.
The time of day is abstracted to a single Nat (0 means midnight, i.e.
hour = minute = second = microsecond = 0). -/
structure DateTime where
  date : Date
  tod : Nat
deriving DecidableEq

/-- Lexicographic comparison of dates, as Python compares them. -/
def Date.ltb (a b : Date) : Bool :=
  a.year < b.year ||
    (a.year == b.year && (a.month < b.month ||
      (a.month == b.month && a.day < b.day)))

/-- Python datetime comparison: date first, then time of day. -/
def DateTime.ltb (a b : DateTime) : Bool :=
  a.date.ltb b.date || (a.date == b.date && a.tod < b.tod)

/-- Gregorian leap-year rule, as used by Python datetime. -/
def isLeap (y : Nat) : Bool :=
  y % 4 == 0 && (y % 100 != 0 || y % 400 == 0)

/-- Number of days in a month, as validated by datetime.date. -/
def daysInMonth (y m : Nat) : Nat :=
  if m == 2 then (if isLeap y then 29 else 28)
  else if m == 4 || m == 6 || m == 9 || m == 11 then 30
  else 31

/-- The calendar successor of a date. -/
def Date.nextDay (d : Date) : Date :=
  if d.day < daysInMonth d.year d.month then ⟨d.year, d.month, d.day + 1⟩
  else if d.month < 12 then ⟨d.year, d.month + 1, 1⟩
  else ⟨d.year + 1, 1, 1⟩

/-- Adding n calendar days to a date (datetime.timedelta(days=n)). -/
def Date.addDays (d : Date) : Nat → Date
  | 0 => d
  | n + 1 => d.nextDay.addDays n

/-- datetime + timedelta(days=n): the date advances, the time of day stays. -/
def DateTime.addDays (dt : DateTime) (n : Nat) : DateTime :=
  ⟨dt.date.addDays n, dt.tod⟩

/-- datetime.replace(hour=0, minute=0, second=0, microsecond=0). -/
def DateTime.trunc (dt : DateTime) : DateTime :=
  ⟨dt.date, 0⟩

/-! ### The regular-expression checks

utils/movie.py validates provider date strings with re.match before
calling datetime.strptime.  re.match anchors at the start of the string
and succeeds on any prefix match.  The two patterns used are simple
sequences of counted character classes, embedded here as such.  The
character classes are the ASCII cores of the Python classes, which is
exact on every provider date string considered here. -/

/-- One regex item: a character class with a repetition range. -/
structure RItem where
  cls : Char → Bool
  lo : Nat
  hi : Nat

/-- Consume exactly n characters of class cls, returning the rest. -/
def takeCls (cls : Char → Bool) : Nat → List Char → Option (List Char)
  | 0, s => some s
  | _ + 1, [] => none
  | n + 1, c :: s => if cls c then takeCls cls n s else none

/-- Prefix-match a sequence of counted character classes (re.match
semantics: existence of a choice of repetition counts). -/
def matchSeq : List RItem → List Char → Bool
  | [], _ => true
  | it :: rest, s =>
    (List.range (it.hi + 1 - it.lo)).any fun j =>
      match takeCls it.cls (it.lo + j) s with
      | some s2 => matchSeq rest s2
      | none => false

/-- Python regex class \w (word character, ASCII core). -/
def isWordChar (c : Char) : Bool := c.isAlphanum || c == '_'

/-- Python regex class . without DOTALL: any character but newline. -/
def isDotChar (c : Char) : Bool := !(c == '\n')

/-- The movie-path pattern from _get_movie_release_date, line 150 of
utils/movie.py. -/
def movieDateRegex : List RItem :=
  [⟨Char.isDigit, 1, 2⟩, ⟨Char.isWhitespace, 1, 1⟩, ⟨isWordChar, 3, 9⟩,
   ⟨Char.isWhitespace, 1, 1⟩, ⟨Char.isDigit, 4, 4⟩]

/-- re.match of the movie-path date pattern. -/
def matchMovieDate (s : String) : Bool := matchSeq movieDateRegex s.data

/-- The episode-path pattern used by _get_episode_release_date and
_update_episode in utils/movie.py. -/
def episodeDateRegex : List RItem :=
  [⟨Char.isDigit, 1, 2⟩, ⟨Char.isWhitespace, 1, 1⟩, ⟨isWordChar, 3, 3⟩,
   ⟨isDotChar, 0, 1⟩, ⟨Char.isWhitespace, 1, 1⟩, ⟨Char.isDigit, 4, 4⟩]

/-- re.match of the episode-path date pattern. -/
def matchEpisodeDate (s : String) : Bool := matchSeq episodeDateRegex s.data

/-- Python str.replace(c, "") for a single character: drop every
occurrence of that character. -/
def removeAllChar (c : Char) (s : String) : String :=
  ⟨s.data.filter fun x => !(x == c)⟩

/-! ### datetime.strptime for the two formats used by the bot

The bot parses with "%d %B %Y" (full month name, movie path) and
"%d %b %Y" (abbreviated month name, episode paths).  CPython _strptime
compiles the format to a regex: %d becomes the alternation
3[01]|[12]\d|0[1-9]|[1-9], a space becomes one-or-more whitespace, %B/%b
becomes a case-insensitive alternation of the month names, %Y becomes
four digits; the whole input must be consumed, and the resulting day is
then validated against the month length (datetime.date raises on an
out-of-range day).  A none result models strptime raising ValueError. -/

/-- Numeric value of a digit character. -/
def digitVal (c : Char) : Nat := c.toNat - 48

/-- First some result of f over a list (regex alternation order). -/
def firstSome {α β : Type} (f : α → Option β) : List α → Option β
  | [] => none
  | a :: l =>
    match f a with
    | some b => some b
    | none => firstSome f l

/-- The day alternation of %d: a two-digit day 01..31 first, then a
single digit 1..9, each with the remaining input. -/
def parseDayChoices : List Char → List (Nat × List Char)
  | c1 :: c2 :: rest =>
    (if c1.isDigit && c2.isDigit &&
        decide (1 ≤ 10 * digitVal c1 + digitVal c2) &&
        decide (10 * digitVal c1 + digitVal c2 ≤ 31)
     then [(10 * digitVal c1 + digitVal c2, rest)] else [])
    ++ (if c1.isDigit && decide (1 ≤ digitVal c1)
        then [(digitVal c1, c2 :: rest)] else [])
  | [c1] => if c1.isDigit && decide (1 ≤ digitVal c1) then [(digitVal c1, [])] else []
  | [] => []

/-- One-or-more whitespace (a space in a strptime format string). -/
def skipWs1 : List Char → Option (List Char)
  | c :: s => if c.isWhitespace then some (s.dropWhile Char.isWhitespace) else none
  | [] => none

/-- Case-insensitive strip of a (lowercase) pattern from the input. -/
def dropCaseless : List Char → List Char → Option (List Char)
  | [], s => some s
  | _ :: _, [] => none
  | p :: ps, c :: cs => if c.toLower == p then dropCaseless ps cs else none

/-- The full month names known to %B, lowercase, January first. -/
def monthFullNames : List String :=
  ["january", "february", "march", "april", "may", "june",
   "july", "august", "september", "october", "november", "december"]

/-- The abbreviated month names known to %b, lowercase, Jan first. -/
def monthAbbrNames : List String :=
  ["jan", "feb", "mar", "apr", "may", "jun",
   "jul", "aug", "sep", "oct", "nov", "dec"]

/-- All ways the month alternation can consume a prefix of the input,
each with the 1-based month number and the remaining input. -/
def parseMonthChoices (names : List String) (s : List Char) : List (Nat × List Char) :=
  names.enum.filterMap fun p =>
    match dropCaseless p.2.data s with
    | some rest => some (p.1 + 1, rest)
    | none => none

/-- Exactly four digits (the %Y group). -/
def parseYear4 : List Char → Option (Nat × List Char)
  | c1 :: c2 :: c3 :: c4 :: rest =>
    if c1.isDigit && c2.isDigit && c3.isDigit && c4.isDigit then
      some (1000 * digitVal c1 + 100 * digitVal c2 +
            10 * digitVal c3 + digitVal c4, rest)
    else none
  | _ => none

/-- After day, whitespace and month: consume the year, require the input
to be exhausted, and validate the day against the month length.  The
returned datetime has a zero time of day, as strptime gives midnight
when the format has no time fields. -/
def finishYear (mon day : Nat) (r : List Char) : Option DateTime :=
  match parseYear4 r with
  | some (y, []) =>
    if decide (1 ≤ y) && decide (day ≤ daysInMonth y mon) then
      some ⟨⟨y, mon, day⟩, 0⟩
    else none
  | _ => none

/-- Continuation after a month candidate has been consumed. -/
def afterMonth (day mon : Nat) (r3 : List Char) : Option DateTime :=
  match skipWs1 r3 with
  | some r4 => finishYear mon day r4
  | none => none

/-- Continuation after a day candidate has been consumed. -/
def afterDay (names : List String) (day : Nat) (r1 : List Char) : Option DateTime :=
  match skipWs1 r1 with
  | some r2 => firstSome (fun p => afterMonth day p.1 p.2) (parseMonthChoices names r2)
  | none => none

/-- datetime.strptime(s, "%d <month-family> %Y"): none models a raised
ValueError. -/
def strptimeWith (names : List String) (s : String) : Option DateTime :=
  firstSome (fun p => afterDay names p.1 p.2) (parseDayChoices s.data)

/-- datetime.strptime(s, "%d %B %Y") (movie path, line 159). -/
def strptimeFullMonth (s : String) : Option DateTime :=
  strptimeWith monthFullNames s

/-- datetime.strptime(s, "%d %b %Y") (episode paths, lines 193, 229, 321). -/
def strptimeAbbrMonth (s : String) : Option DateTime :=
  strptimeWith monthAbbrNames s

/-! ### The alert store (utils/db.py)

The sqlite table imdb_alerts is modelled as a list of rows in insertion
order.  The table has no uniqueness constraint, so insert appends
unconditionally; update and delete act on every row matching the
(user_id, title_id) pair. -/

/-- One row of the imdb_alerts table. -/
structure AlertRecord where
  user_id : String
  user_name : String
  title_id : String
  title_name : String
  episode_id : Option String
  release_date : DateTime
deriving DecidableEq

/-- The imdb_alerts table contents. -/
abbrev Db := List AlertRecord

/-- Python truthiness of an optional string: None and "" are falsy. -/
def pyTruthy : Option String → Bool
  | none => false
  | some s => !(s == "")

namespace Database

/-- The WHERE user_id=? AND title_id=? condition. -/
def keyMatch (uid tid : String) (r : AlertRecord) : Bool :=
  r.user_id == uid && r.title_id == tid

/-- CREATE TABLE IF NOT EXISTS: idempotent schema creation; it never
touches the rows. -/
def create_table (db : Db) : Db := db

/-- Database.insert: an unconditional INSERT of one row, returning the
string Alert enabled. -/
def insert (db : Db) (r : AlertRecord) : String × Db :=
  ("Alert enabled.", db ++ [r])

/-- Database.update: SET title_episode_id, title_release on every row
matching the key. -/
def update (db : Db) (ep : Option String) (rel : DateTime) (uid tid : String) : Db :=
  db.map fun r =>
    if keyMatch uid tid r then { r with episode_id := ep, release_date := rel } else r

/-- Database.delete: DELETE of every row matching the key, returning the
string Alert disabled. -/
def delete (db : Db) (uid tid : String) : String × Db :=
  ("Alert disabled.", db.filter fun r => !(keyMatch uid tid r))

/-- Database.query_user_alert: SELECT title_name for the key, fetchone. -/
def query_user_alert (db : Db) (uid tid : String) : Option String :=
  (db.find? (keyMatch uid tid)).map (·.title_name)

/-- Database.query_released: SELECT user_id, title_id, title_episode_id
of every row whose title_release equals today. -/
def query_released (db : Db) (today : DateTime) : List (String × String × Option String) :=
  (db.filter fun r => r.release_date == today).map fun r =>
    (r.user_id, r.title_id, r.episode_id)

end Database

/-! ### The metadata provider and the clock

The Alert engine consults IMDb through imdb_api.  Each lookup either
returns loosely-typed data or raises a network error; a raised lookup is
modelled as none. -/

/-- Provider data for one episode, as used by the engine: its IMDb id
(getID), the original air date field, and the next episode link. -/
structure Episode where
  id : String
  original_air_date : Option String
  next_episode : Option String
deriving DecidableEq

/-- One entry of the raw release dates list of a movie. -/
structure ReleaseInfo where
  country : String
  date : String
  notes : Option String
deriving DecidableEq

/-- Main-detail provider data for a title, as read by Alert.enable. -/
structure TitleMain where
  long_imdb_title : String
  seasons : Option (List Nat)
deriving DecidableEq

/-- Truthiness of the seasons field (None and the empty list are falsy). -/
def seasonsTruthy : Option (List Nat) → Bool
  | none => false
  | some l => !l.isEmpty

/-- The external world of the engine: the wall clock and the IMDb
provider.  A none lookup result models the provider raising. -/
structure Env where
  now : DateTime
  getEpisode : String → Option Episode
  getMovieMain : String → Option TitleMain
  getReleaseInfo : String → Option (Option (List ReleaseInfo))
  getEpisodeList : String → Option (Option (List (Nat × List (Nat × Episode))))
  getMovieOk : String → Bool

/-! ### The alert engine (class Alert in utils/movie.py)

Every public operation of Alert is wrapped by the decorator
_catch_and_log, which turns any uncaught exception into the return value
"Unexpected error occured." and otherwise passes the result through.
The embedding threads the table contents through each operation and
surfaces a modelled raise as that string with the table left as it was
at the time of the raise. -/

namespace Alert

/-- The USA date strings of _get_movie_release_date, lines 154-156: the
date field of every entry whose country is the string USA followed by a
newline and whose notes field is falsy. -/
def usaDates (rds : List ReleaseInfo) : List String :=
  (rds.filter fun i => i.country == "USA\n" && ((i.notes.getD "") == "")).map (·.date)

/-- Alert._get_movie_release_date, lines 141-171, after the provider
call: branch on the raw release dates list, pick the first USA entry
without notes, validate with the movie pattern, parse with
"%d %B %Y", and insert a row when the date is strictly after now. -/
def get_movie_release_date (env : Env) (release_dates : Option (List ReleaseInfo))
    (user_id user_name title_id title_name : String) (db : Db) : String × Db :=
  match release_dates with
  | some rds =>
    if rds.isEmpty then ("No release date found", db)
    else
      match usaDates rds with
      | d0 :: _ =>
        if matchMovieDate d0 then
          match strptimeFullMonth d0 with
          | some release_date =>
            if env.now.ltb release_date then
              Database.insert db ⟨user_id, user_name, title_id, title_name, none, release_date⟩
            else ("Released on " ++ d0 ++ " in USA", db)
          | none => ("Unexpected error occured.", db)
        else ("Unable to find USA release date", db)
      | [] => ("Unable to find USA release date", db)
  | none => ("No release date found", db)

/-- The episode loop of Alert._get_episode_release_date, lines 189-207.
The msg argument is the Python local variable message, which is unbound
(none) until some branch assigns it; returning with it unbound raises
UnboundLocalError, caught by the decorator. -/
def episode_scan (env : Env) (user_id user_name title_id title_name : String)
    (season total : Nat) :
    List (Nat × Episode) → Option String → Db → String × Db
  | [], msg, db => (msg.getD "Unexpected error occured.", db)
  | (ep_no, ep) :: rest, msg, db =>
    match ep.original_air_date with
    | some raw =>
      if matchEpisodeDate raw then
        match strptimeAbbrMonth (removeAllChar '.' raw) with
        | some release_date =>
          if release_date.ltb env.now then
            if ep_no == total then
              ("Season " ++ toString season ++ " finale aired " ++ removeAllChar '.' raw, db)
            else
              episode_scan env user_id user_name title_id title_name season total rest msg db
          else
            Database.insert db ⟨user_id, user_name, title_id, title_name, some ep.id, release_date⟩
        | none => ("Unexpected error occured.", db)
      else
        episode_scan env user_id user_name title_id title_name season total rest
          (some "Unable to get episode release date") db
    | none =>
      episode_scan env user_id user_name title_id title_name season total rest
        (some "Unable to get episode release date") db

/-- Alert._get_episode_release_date, lines 174-211, after the provider
call: take the first season of the episode map and scan its episodes. -/
def get_episode_release_date (env : Env)
    (title_episodes : Option (List (Nat × List (Nat × Episode))))
    (user_id user_name title_id title_name : String) (db : Db) : String × Db :=
  match title_episodes with
  | some ((season, eps) :: _) =>
    episode_scan env user_id user_name title_id title_name season eps.length eps none db
  | some [] => ("Unable to get series episodes", db)
  | none => ("Unable to get series episodes", db)

/-- Alert._update_episode, lines 214-243.  Returns the Python return
value next_episode_id together with the table: none or an empty string
stand for a falsy return, and a modelled raise inside the body is
caught by the decorator, which returns the error string with the table
untouched. -/
def update_episode (env : Env) (user_id title_id : String) (cur : Episode) (db : Db) :
    Option String × Db :=
  match cur.next_episode with
  | some nid =>
    if nid == "" then
      (some "", (Database.delete db user_id title_id).2)
    else
      match env.getEpisode nid with
      | none => (some "Unexpected error occured.", db)
      | some nd =>
        if pyTruthy nd.original_air_date && matchEpisodeDate (nd.original_air_date.getD "") then
          match strptimeAbbrMonth (removeAllChar ',' (nd.original_air_date.getD "")) with
          | some release_date =>
            (some nid, Database.update db (some nid) release_date user_id title_id)
          | none => (some "Unexpected error occured.", db)
        else
          (some cur.id,
           Database.update db (some cur.id) ((env.now.addDays 7).trunc) user_id title_id)
  | none => (none, (Database.delete db user_id title_id).2)

/-- Alert.enable, lines 246-262: fetch main title data and dispatch on
the presence of a season map. -/
def enable (env : Env) (user_id user_name title_id : String) (db : Db) : String × Db :=
  match env.getMovieMain title_id with
  | none => ("Unexpected error occured.", db)
  | some t =>
    if seasonsTruthy t.seasons then
      match env.getEpisodeList title_id with
      | none => ("Unexpected error occured.", db)
      | some eps => get_episode_release_date env eps user_id user_name title_id t.long_imdb_title db
    else
      match env.getReleaseInfo title_id with
      | none => ("Unexpected error occured.", db)
      | some rds => get_movie_release_date env rds user_id user_name title_id t.long_imdb_title db

/-- Alert.disable, lines 265-272. -/
def disable (db : Db) (user_id title_id : String) : String × Db :=
  Database.delete db user_id title_id

/-- The three notification texts built in Alert.notify.  Each carries
the data its text is rendered from; the HTML rendering by reply_message
and get_fields is pure formatting and is abstracted away, since only
which notifications are emitted matters here. -/
inductive Message where
  | seriesFinale (current : Episode)
  | episodeOut (current : Episode)
  | movieOut (title_id : String)
deriving DecidableEq

/-- The body of the per-row loop of Alert.notify, lines 316-342.  A
none result models an exception raised in the loop body itself (a
KeyError on a missing air date field, a strptime ValueError, or a
provider fault on the direct get_episode and get_movie calls); such an
exception is only caught by the decorator around the whole of notify. -/
def notify_row (env : Env) (today : DateTime) (row : String × String × Option String)
    (db : Db) : Option (Option (String × Message) × Db) :=
  let (user_id, title_id, title_episode_id) := row
  if pyTruthy title_episode_id then
    match title_episode_id with
    | some eid =>
      match env.getEpisode eid with
      | none => none
      | some cur =>
        match cur.original_air_date with
        | none => none
        | some raw =>
          match strptimeAbbrMonth (removeAllChar ',' raw) with
          | none => none
          | some current_release_date =>
            let res := update_episode env user_id title_id cur db
            if !(pyTruthy res.1) then
              some (some (user_id, Message.seriesFinale cur), res.2)
            else if current_release_date == today then
              some (some (user_id, Message.episodeOut cur), res.2)
            else
              some (none, res.2)
    | none => none
  else
    if env.getMovieOk title_id then
      some (some (user_id, Message.movieOut title_id), (Database.delete db user_id title_id).2)
    else none

/-- The for loop of Alert.notify over the due rows: alerts accumulate
left to right; an exception in a row body aborts the whole loop, and
the decorator then discards the alerts accumulated so far. -/
def notify_loop (env : Env) (today : DateTime) :
    List (String × String × Option String) → Db → List (String × Message) →
    Option (List (String × Message)) × Db
  | [], db, alerts => (some alerts, db)
  | row :: rest, db, alerts =>
    match notify_row env today row db with
    | none => (none, db)
    | some (alert, db2) => notify_loop env today rest db2 (alerts ++ alert.toList)

/-- Alert.notify, lines 304-344: compute today at midnight, query the
due rows, and run the loop.  Sum.inl is the decorator result after an
uncaught exception; Sum.inr is the list of (user_id, message) alerts. -/
def notify (env : Env) (db : Db) : (String ⊕ List (String × Message)) × Db :=
  let today := env.now.trunc
  let rows := Database.query_released db today
  match notify_loop env today rows db [] with
  | (some alerts, db2) => (Sum.inr alerts, db2)
  | (none, db2) => (Sum.inl "Unexpected error occured.", db2)

end Alert

/-! ### Spec-side predicates and concrete scenario data -/

/-- An episode whose air date field is absent or fails the episode date
pattern; the scan guard on line 191 treats both the same way. -/
def epDateUnusable (ep : Episode) : Bool :=
  match ep.original_air_date with
  | none => true
  | some raw => !(matchEpisodeDate raw)

/-- Number of rows of the table matching a (user_id, title_id) pair. -/
def keyCount (db : Db) (uid tid : String) : Nat :=
  (db.filter (Database.keyMatch uid tid)).length

/-- The spec invariant on the store: at most one row per
(user_id, title_id) pair. -/
def UniqueKeys (db : Db) : Prop :=
  ∀ uid tid, keyCount db uid tid ≤ 1

/-- A clock reading of 2024-06-15 at noon. -/
def nowJune : DateTime := ⟨⟨2024, 6, 15⟩, 43200⟩

/-- An environment whose provider raises on every lookup. -/
def envNoProvider : Env :=
  ⟨nowJune, fun _ => none, fun _ => none, fun _ => none, fun _ => none, fun _ => false⟩

/-- A due series record for user u1 and title t1 tracking episode e1. -/
def recSeriesDue : AlertRecord :=
  ⟨"u1", "n1", "t1", "T1", some "e1", ⟨⟨2024, 6, 15⟩, 0⟩⟩

/-- A due movie record for user u2 and title t2. -/
def recMovieDue : AlertRecord :=
  ⟨"u2", "n2", "t2", "T2", none, ⟨⟨2024, 6, 15⟩, 0⟩⟩

/-- A tick environment in which episode e1 exists but lacks the air
date field, while title t2 fetches fine. -/
def envTick : Env :=
  ⟨nowJune, fun s => if s == "e1" then some ⟨"e1", none, none⟩ else none,
   fun _ => none, fun _ => none, fun _ => none, fun t => t == "t2"⟩

/-- The current episode of the series scenarios: it airs on 2024-06-15
and links to next episode e2. -/
def curSeries : Episode := ⟨"e1", some "15 Jun 2024", some "e2"⟩

/-- An environment in which e1 is the current episode, e2 has a valid
future air date, and e3 exists but has no air date. -/
def envSeries : Env :=
  ⟨nowJune,
   fun s => if s == "e1" then some curSeries
            else if s == "e2" then some ⟨"e2", some "22 Jun 2024", none⟩
            else if s == "e3" then some ⟨"e3", none, none⟩ else none,
   fun _ => none, fun _ => none, fun _ => none, fun _ => false⟩

/-- An environment in which title t is a movie with one clean USA
release date in the future. -/
def envMovie : Env :=
  ⟨nowJune, fun _ => none, fun s => if s == "t" then some ⟨"T", none⟩ else none,
   fun s => if s == "t" then some (some [⟨"USA\n", "15 June 2030", none⟩]) else none,
   fun _ => none, fun _ => false⟩

/-- Two rows sharing the (user_id, title_id) pair (u1, t1). -/
def recDupA : AlertRecord := ⟨"u1", "n1", "t1", "T1", none, ⟨⟨2030, 1, 1⟩, 0⟩⟩

/-- Second row for the duplicate-insert scenario, same key as recDupA. -/
def recDupB : AlertRecord := ⟨"u1", "other", "t1", "T1", none, ⟨⟨2030, 2, 2⟩, 0⟩⟩

/-! ### Helper lemmas -/

/-- A property holding of every some result of f holds of a firstSome. -/
theorem firstSome_pred {α β : Type} (f : α → Option β) (P : β → Prop)
    (hf : ∀ a b, f a = some b → P b) :
    ∀ (l : List α) (b : β), firstSome f l = some b → P b := by
  intro l
  induction l with
  | nil => intro b h; simp [firstSome] at h
  | cons a l ih =>
    intro b h
    unfold firstSome at h
    cases ha : f a with
    | some c => rw [ha] at h; cases h; exact hf a b ha
    | none => rw [ha] at h; exact ih b h

/-- The year step of strptime always produces a midnight datetime. -/
theorem finishYear_tod (mon day : Nat) (r : List Char) (dt : DateTime)
    (h : finishYear mon day r = some dt) : dt.tod = 0 := by
  unfold finishYear at h
  split at h
  · split at h
    · cases h; rfl
    · cases h
  · cases h

/-- The month step of strptime always produces a midnight datetime. -/
theorem afterMonth_tod (day mon : Nat) (r : List Char) (dt : DateTime)
    (h : afterMonth day mon r = some dt) : dt.tod = 0 := by
  unfold afterMonth at h
  split at h
  · exact finishYear_tod _ _ _ _ h
  · cases h

/-- The day step of strptime always produces a midnight datetime. -/
theorem afterDay_tod (names : List String) (day : Nat) (r : List Char) (dt : DateTime)
    (h : afterDay names day r = some dt) : dt.tod = 0 := by
  unfold afterDay at h
  split at h
  · exact firstSome_pred _ (fun dt => dt.tod = 0)
      (fun _ _ hb => afterMonth_tod _ _ _ _ hb) _ _ h
  · cases h

/-- strptime with no time fields in the format yields midnight. -/
theorem strptimeWith_tod (names : List String) (s : String) (dt : DateTime)
    (h : strptimeWith names s = some dt) : dt.tod = 0 :=
  firstSome_pred _ (fun dt => dt.tod = 0)
    (fun _ _ hb => afterDay_tod _ _ _ _ hb) _ _ h

/-- Filtering twice with the same predicate filters once. -/
theorem filter_idem {α : Type} (p : α → Bool) :
    ∀ l : List α, (l.filter p).filter p = l.filter p
  | [] => rfl
  | a :: l => by
    cases h : p a <;> simp [List.filter_cons, h, filter_idem p l]

/-- No element satisfying p survives filtering by the negation of p. -/
theorem find_filter_not {α : Type} (p : α → Bool) :
    ∀ l : List α, (l.filter fun a => !(p a)).find? p = none
  | [] => rfl
  | a :: l => by
    cases h : p a <;>
      simp [List.filter_cons, h, List.find?, find_filter_not p l]

/-- A row of an updated table was a row before, unless its release
date is the newly written one. -/
theorem mem_update (db : Db) (ep : Option String) (rel : DateTime)
    (uid tid : String) (r : AlertRecord)
    (h : r ∈ Database.update db ep rel uid tid) :
    r ∈ db ∨ r.release_date = rel := by
  unfold Database.update at h
  rcases List.mem_map.mp h with ⟨a, ha, heq⟩
  by_cases hk : Database.keyMatch uid tid a = true
  · right; rw [hk] at heq; simp at heq; rw [← heq]
  · left; rw [if_neg hk] at heq; rw [← heq]; exact ha

/-- Prepending one row adds its own key contribution to the count. -/
theorem keyCount_cons (a : AlertRecord) (l : Db) (u t : String) :
    keyCount (a :: l) u t =
      (if Database.keyMatch u t a then 1 else 0) + keyCount l u t := by
  unfold keyCount
  cases hk : Database.keyMatch u t a <;>
    simp [List.filter_cons, hk, Nat.add_comm]

/-- Filtering never increases the number of rows matching a key. -/
theorem keyCount_filter_le (q : AlertRecord → Bool) (uid tid : String) :
    ∀ db : Db, keyCount (db.filter q) uid tid ≤ keyCount db uid tid
  | [] => Nat.le_refl 0
  | a :: l => by
    have ih := keyCount_filter_le q uid tid l
    rw [List.filter_cons]
    cases hq : q a
    · rw [if_neg (by simp [hq]), keyCount_cons]
      exact Nat.le_trans ih (Nat.le_add_left _ _)
    · rw [if_pos (by simp [hq]), keyCount_cons, keyCount_cons]
      exact Nat.add_le_add_left ih _

/-- An UPDATE leaves the number of rows matching any key unchanged,
because it never touches the user_id and title_id columns. -/
theorem keyCount_update (db : Db) (ep : Option String) (rel : DateTime)
    (uid tid u t : String) :
    keyCount (Database.update db ep rel uid tid) u t = keyCount db u t := by
  induction db with
  | nil => rfl
  | cons a l ih =>
    unfold keyCount Database.update at ih ⊢
    have hsame : Database.keyMatch u t
        (if Database.keyMatch uid tid a then
          { a with episode_id := ep, release_date := rel } else a) =
        Database.keyMatch u t a := by
      by_cases hk : Database.keyMatch uid tid a = true
      · rw [if_pos hk]; rfl
      · rw [if_neg hk]
    simp only [List.map_cons, List.filter_cons, hsame]
    cases hm : Database.keyMatch u t a <;> simp [ih]

/-- Appending one row adds one to the count of its own key and nothing
to any other. -/
theorem keyCount_append (db : Db) (r : AlertRecord) (u t : String) :
    keyCount (db ++ [r]) u t =
      keyCount db u t + (if Database.keyMatch u t r then 1 else 0) := by
  unfold keyCount
  rw [List.filter_append]
  cases hk : Database.keyMatch u t r <;>
    simp [List.filter_cons, hk]

/-- A datetime is never strictly earlier than itself. -/
theorem DateTime.ltb_self (a : DateTime) : a.ltb a = false := by
  simp [DateTime.ltb, Date.ltb]

/-- The scan step on an episode without a usable air date: the message
is set and the loop moves on to the remaining episodes. -/
theorem episode_scan_skip (env : Env) (uid un tid tn : String)
    (season total ep_no : Nat) (ep : Episode) (rest : List (Nat × Episode))
    (msg : Option String) (db : Db) (h : epDateUnusable ep = true) :
    Alert.episode_scan env uid un tid tn season total ((ep_no, ep) :: rest) msg db =
      Alert.episode_scan env uid un tid tn season total rest
        (some "Unable to get episode release date") db := by
  unfold epDateUnusable at h
  cases hoa : ep.original_air_date with
  | none => simp [Alert.episode_scan, hoa]
  | some raw =>
    rw [hoa] at h
    simp only [Bool.not_eq_true'] at h
    simp [Alert.episode_scan, hoa, h]

/-- Every row left by the episode scan was already a row or carries a
midnight release date. -/
theorem episode_scan_mem (env : Env) (uid un tid tn : String) (season total : Nat) :
    ∀ (eps : List (Nat × Episode)) (msg : Option String) (db : Db) (r : AlertRecord),
      r ∈ (Alert.episode_scan env uid un tid tn season total eps msg db).2 →
      r ∈ db ∨ r.release_date.tod = 0 := by
  intro eps
  induction eps with
  | nil => intro msg db r h; simp [Alert.episode_scan] at h; exact Or.inl h
  | cons p rest ih =>
    intro msg db r h
    obtain ⟨ep_no, ep⟩ := p
    cases hoa : ep.original_air_date with
    | none =>
      simp only [Alert.episode_scan, hoa] at h
      exact ih _ _ _ h
    | some raw =>
      by_cases hm : matchEpisodeDate raw = true
      · cases hp : strptimeAbbrMonth (removeAllChar '.' raw) with
        | none =>
          simp only [Alert.episode_scan, hoa, hm, hp, if_true] at h
          exact Or.inl h
        | some release_date =>
          by_cases hlt : release_date.ltb env.now = true
          · by_cases hn : (ep_no == total) = true
            · simp only [Alert.episode_scan, hoa, hm, hp, hlt, hn, if_true] at h
              exact Or.inl h
            · simp only [Alert.episode_scan, hoa, hm, hp, hlt, hn, if_true, if_false] at h
              exact ih _ _ _ h
          · simp only [Alert.episode_scan, hoa, hm, hp, hlt, if_true, if_false,
              Database.insert] at h
            rcases List.mem_append.mp h with h2 | h2
            · exact Or.inl h2
            · right
              rw [List.mem_singleton.mp h2]
              exact strptimeWith_tod _ _ _ hp
      · simp only [Alert.episode_scan, hoa, hm] at h
        exact ih _ _ _ h

/-! ### The claims -/

/-- C8: the date resolver maps "15 June 2024" (long-month family) to
2024-06-15, maps "12 Jun 2024" (short-month family, after the period
normalization of the episode path) to 2024-06-12, and maps "TBA" to the
not-found outcome: both patterns reject it, and the movie path then
reports that no USA release date could be found without writing a row. -/
theorem date_resolver_examples :
    (matchMovieDate "15 June 2024" = true ∧
      strptimeFullMonth "15 June 2024" = some ⟨⟨2024, 6, 15⟩, 0⟩)
  ∧ (matchEpisodeDate "12 Jun 2024" = true ∧
      strptimeAbbrMonth (removeAllChar '.' "12 Jun 2024") = some ⟨⟨2024, 6, 12⟩, 0⟩)
  ∧ (matchMovieDate "TBA" = false ∧ matchEpisodeDate "TBA" = false ∧
      Alert.get_movie_release_date envNoProvider (some [⟨"USA\n", "TBA", none⟩])
        "u" "n" "t" "T" [] = ("Unable to find USA release date", [])) := by
  decide

/-- C9: disable is idempotent and total: for every prior table state it
removes the rows matching the key, a second call returns the very same
confirmation without fault, and a findOne lookup on the key afterwards
returns no record. -/
theorem disable_idempotent_total (db : Db) (uid tid : String) :
    Alert.disable ((Alert.disable db uid tid).2) uid tid = Alert.disable db uid tid
    ∧ (Alert.disable db uid tid).1 = "Alert disabled."
    ∧ Database.query_user_alert ((Alert.disable db uid tid).2) uid tid = none := by
  refine ⟨?_, rfl, ?_⟩
  · simp [Alert.disable, Database.delete, filter_idem]
  · simp [Alert.disable, Database.delete, Database.query_user_alert, find_filter_not]

/-- C1 counterexample: an episode list with a broken first episode and a
valid future second episode.  The scan does not stop at the broken one:
it inserts a row for the second episode and returns the success status,
not the unable-to-get-episode-release-date status. -/
theorem series_scan_not_halted_by_broken_episode :
    Alert.get_episode_release_date envNoProvider
      (some [(1, [(1, ⟨"e1", none, none⟩), (2, ⟨"e2", some "20 Jun 2030", none⟩)])])
      "u" "n" "t" "T" [] =
      ("Alert enabled.", [⟨"u", "n", "t", "T", some "e2", ⟨⟨2030, 6, 20⟩, 0⟩⟩])
    ∧ "Alert enabled." ≠ "Unable to get episode release date" := by
  decide

/-- C1 amended: the subscribe-path series scan does not terminate at the
first episode whose air date is missing or fails validation; it records
the unable-to-get-episode-release-date status and continues with the
remaining episodes, and that status is returned only when the whole scan
finishes without a finale, an insert, or a parse fault, in particular
when every episode is broken. -/
theorem series_scan_skips_broken_episode :
    (∀ (env : Env) (uid un tid tn : String) (season total ep_no : Nat) (ep : Episode)
        (rest : List (Nat × Episode)) (msg : Option String) (db : Db),
        epDateUnusable ep = true →
        Alert.episode_scan env uid un tid tn season total ((ep_no, ep) :: rest) msg db =
          Alert.episode_scan env uid un tid tn season total rest
            (some "Unable to get episode release date") db)
  ∧ (∀ (env : Env) (uid un tid tn : String) (season total : Nat)
        (eps : List (Nat × Episode)) (msg : Option String) (db : Db),
        eps ≠ [] → (∀ p ∈ eps, epDateUnusable p.2 = true) →
        Alert.episode_scan env uid un tid tn season total eps msg db =
          ("Unable to get episode release date", db)) := by
  constructor
  · exact fun env uid un tid tn season total ep_no ep rest msg db h =>
      episode_scan_skip env uid un tid tn season total ep_no ep rest msg db h
  · intro env uid un tid tn season total eps
    induction eps with
    | nil => intro msg db h _; exact absurd rfl h
    | cons p rest ih =>
      intro msg db _ hall
      obtain ⟨n, ep⟩ := p
      rw [episode_scan_skip env uid un tid tn season total n ep rest msg db
        (hall (n, ep) (List.mem_cons_self _ _))]
      cases rest with
      | nil => simp [Alert.episode_scan]
      | cons q rest2 =>
        exact ih _ _ (by simp) (fun p hp => hall p (List.mem_cons_of_mem _ hp))

/-- Witness for the amended C1 at a concrete broken episode. -/
theorem series_scan_skips_broken_episode_inst :
    Alert.episode_scan envNoProvider "u" "n" "t" "T" 1 2
        [(1, ⟨"e1", none, none⟩), (2, ⟨"e2", some "20 Jun 2030", none⟩)] none [] =
      Alert.episode_scan envNoProvider "u" "n" "t" "T" 1 2
        [(2, ⟨"e2", some "20 Jun 2030", none⟩)]
        (some "Unable to get episode release date") [] :=
  series_scan_skips_broken_episode.1 envNoProvider "u" "n" "t" "T" 1 2 1
    ⟨"e1", none, none⟩ [(2, ⟨"e2", some "20 Jun 2030", none⟩)] none [] (by decide)

/-- C6 counterexample: strings that pass the pattern check but on which
the strict parser still raises — a 6-letter non-month word in the movie
family, and a comma in the short-month family, which the episode
subscribe path does not normalize away (it only strips periods).  On the
movie path the raised ValueError surfaces as the generic error status of
the decorator, not as a not-found status. -/
theorem date_pattern_pass_strict_parse_raises :
    matchMovieDate "15 Juneau 2024" = true
  ∧ strptimeFullMonth "15 Juneau 2024" = none
  ∧ Alert.get_movie_release_date envNoProvider
      (some [⟨"USA\n", "15 Juneau 2024", none⟩]) "u" "n" "t" "T" [] =
      ("Unexpected error occured.", [])
  ∧ matchEpisodeDate "12 Jun, 2024" = true
  ∧ strptimeAbbrMonth (removeAllChar '.' "12 Jun, 2024") = none := by
  decide

/-- C6 amended: the pattern check always precedes strict parsing and a
pattern failure yields the not-found status of the respective path with
no parse attempted and no crash; but a string passing the pattern is not
always safely consumed by the strict parser — the parser can still fail,
which the decorator surfaces as the generic error status. -/
theorem date_validation_guards_strict_parse :
    (∀ (env : Env) (uid un tid tn : String) (db : Db) (e : ReleaseInfo)
        (rds : List ReleaseInfo),
        e.country = "USA\n" → e.notes = none → matchMovieDate e.date = false →
        Alert.get_movie_release_date env (some (e :: rds)) uid un tid tn db =
          ("Unable to find USA release date", db))
  ∧ (∀ (env : Env) (uid un tid tn : String) (season total ep_no : Nat)
        (ep : Episode) (msg : Option String) (db : Db),
        epDateUnusable ep = true →
        Alert.episode_scan env uid un tid tn season total [(ep_no, ep)] msg db =
          ("Unable to get episode release date", db))
  ∧ (matchMovieDate "15 Juneau 2024" = true ∧
      strptimeFullMonth "15 Juneau 2024" = none) := by
  refine ⟨?_, ?_, by decide, by decide⟩
  · intro env uid un tid tn db e rds hc hn hm
    simp [Alert.get_movie_release_date, Alert.usaDates, List.filter_cons, hc, hn, hm]
  · intro env uid un tid tn season total ep_no ep msg db h
    rw [episode_scan_skip env uid un tid tn season total ep_no ep [] msg db h]
    simp [Alert.episode_scan]

/-- Witness for the amended C6 at a concrete entry failing the pattern. -/
theorem date_validation_guards_strict_parse_inst :
    Alert.get_movie_release_date envNoProvider (some [⟨"USA\n", "TBA", none⟩])
      "u" "n" "t" "T" [] = ("Unable to find USA release date", []) :=
  date_validation_guards_strict_parse.1 envNoProvider "u" "n" "t" "T" []
    ⟨"USA\n", "TBA", none⟩ [] rfl rfl (by decide)

/-- C7 counterexample: the store does not enforce uniqueness of the
(user_id, title_id) pair.  From a table satisfying the invariant, one
call of insert with an already-present key yields a table with two rows
for the pair (u1, t1). -/
theorem insert_can_duplicate_user_title_key :
    UniqueKeys [recDupA]
  ∧ (Database.insert [recDupA] recDupB).2 = [recDupA, recDupB]
  ∧ ¬ UniqueKeys (Database.insert [recDupA] recDupB).2 := by
  refine ⟨fun uid tid => ?_, rfl, fun h => absurd (h "u1" "t1") (by decide)⟩
  exact List.length_filter_le _ _

/-- C7 amended: uniqueness of (user_id, title_id) is not enforced by the
store: create_schema, update and delete preserve the invariant, but
insert preserves it only when the key is not already present — the
duplicate check is left to callers, outside enable. -/
theorem key_uniqueness_preserved_except_insert :
    (∀ db : Db, UniqueKeys db → UniqueKeys (Database.create_table db))
  ∧ (∀ (db : Db) (uid tid : String), UniqueKeys db →
        UniqueKeys (Database.delete db uid tid).2)
  ∧ (∀ (db : Db) (ep : Option String) (rel : DateTime) (uid tid : String),
        UniqueKeys db → UniqueKeys (Database.update db ep rel uid tid))
  ∧ (∀ (db : Db) (r : AlertRecord), UniqueKeys db →
        keyCount db r.user_id r.title_id = 0 →
        UniqueKeys (Database.insert db r).2) := by
  refine ⟨fun db h => h, ?_, ?_, ?_⟩
  · intro db uid tid h u t
    exact Nat.le_trans (keyCount_filter_le _ u t db) (h u t)
  · intro db ep rel uid tid h u t
    rw [keyCount_update]
    exact h u t
  · intro db r h h0 u t
    show keyCount (db ++ [r]) u t ≤ 1
    rw [keyCount_append]
    by_cases hk : Database.keyMatch u t r = true
    · rw [if_pos hk]
      simp only [Database.keyMatch, Bool.and_eq_true, beq_iff_eq] at hk
      obtain ⟨hu, ht⟩ := hk
      rw [← hu, ← ht, h0]
    · rw [if_neg hk]
      simpa using h u t

/-- Witness for the amended C7: inserting a fresh key keeps uniqueness. -/
theorem key_uniqueness_preserved_except_insert_inst :
    UniqueKeys (Database.insert [recDupA] recMovieDue).2 :=
  key_uniqueness_preserved_except_insert.2.2.2 [recDupA] recMovieDue
    (fun _ _ => List.length_filter_le _ _) (by decide)

/-- C2 counterexample: two due records, the first of which raises while
being processed (its episode lacks the air date field, so the loop body
hits a KeyError before any per-record protection).  The tick returns the
generic decorator error and no notifications at all, although the second
record on its own would have produced the movie-is-out notification. -/
theorem notify_tick_not_fault_isolated :
    Alert.notify envTick [recSeriesDue, recMovieDue] =
      (Sum.inl "Unexpected error occured.", [recSeriesDue, recMovieDue])
  ∧ Alert.notify envTick [recMovieDue] =
      (Sum.inr [("u2", Alert.Message.movieOut "t2")], []) := by
  decide

/-- C2 amended: processing of due records is not fault-isolated: an
exception raised in the loop body for one record aborts the whole tick —
later due records are not processed and the notifications accumulated
for earlier ones are discarded, notify returning the generic decorator
error instead (only faults inside the _update_episode subroutine are
caught by its own decorator). -/
theorem notify_aborts_at_faulting_row :
    (∀ (env : Env) (today : DateTime) (row : String × String × Option String)
        (rest : List (String × String × Option String)) (db : Db)
        (alerts : List (String × Alert.Message)),
        Alert.notify_row env today row db = none →
        Alert.notify_loop env today (row :: rest) db alerts = (none, db))
  ∧ (∀ (env : Env) (db : Db) (row : String × String × Option String)
        (rest : List (String × String × Option String)),
        Database.query_released db env.now.trunc = row :: rest →
        Alert.notify_row env env.now.trunc row db = none →
        Alert.notify env db = (Sum.inl "Unexpected error occured.", db)) := by
  constructor
  · intro env today row rest db alerts h
    simp [Alert.notify_loop, h]
  · intro env db row rest hq h
    simp [Alert.notify, hq, Alert.notify_loop, h]

/-- Witness for the amended C2 at the concrete faulting tick. -/
theorem notify_aborts_at_faulting_row_inst :
    Alert.notify envTick [recSeriesDue, recMovieDue] =
      (Sum.inl "Unexpected error occured.", [recSeriesDue, recMovieDue]) :=
  notify_aborts_at_faulting_row.2 envTick [recSeriesDue, recMovieDue]
    ("u1", "t1", some "e1") [("u2", "t2", none)] (by decide) (by decide)

/-- C3 counterexample: a due series record whose next episode has a
valid future air date (2024-06-22, a week after today).  The tick
updates the record in place, yet it does emit the episode-is-out
notification, because the notification condition compares the current
episode re-fetched air date with today — not the new release date,
which here differs from today. -/
theorem notify_emits_for_current_date_not_new :
    Alert.notify envSeries [recSeriesDue] =
      (Sum.inr [("u1", Alert.Message.episodeOut curSeries)],
       [⟨"u1", "n1", "t1", "T1", some "e2", ⟨⟨2024, 6, 22⟩, 0⟩⟩])
  ∧ (⟨⟨2024, 6, 22⟩, 0⟩ : DateTime) ≠ envSeries.now.trunc := by
  decide

/-- C3 amended: for every due series record whose current episode
re-fetches with a parsable air date and whose next-episode link leads to
an episode with a valid future air date, notify updates the stored
record in place (same key, next episode id, new date — no deletion) and
emits the episode-is-out notification if and only if the re-fetched
current episode air date equals today; the new release date, being in
the future, never equals today. -/
theorem notify_series_update_emits_iff_current_today
    (env : Env) (u un t tn eid nid rawc rawn : String) (cur nd : Episode)
    (dc dn : DateTime)
    (heid : eid ≠ "")
    (hcur : env.getEpisode eid = some cur)
    (hrawc : cur.original_air_date = some rawc)
    (hdc : strptimeAbbrMonth (removeAllChar ',' rawc) = some dc)
    (hnext : cur.next_episode = some nid) (hnid : nid ≠ "")
    (hnd : env.getEpisode nid = some nd)
    (hrawn : nd.original_air_date = some rawn) (hrawnne : rawn ≠ "")
    (hmatch : matchEpisodeDate rawn = true)
    (hdn : strptimeAbbrMonth (removeAllChar ',' rawn) = some dn)
    (hfut : env.now.trunc.ltb dn = true) :
    Alert.notify env [⟨u, un, t, tn, some eid, env.now.trunc⟩] =
      (Sum.inr (if dc == env.now.trunc
                then [(u, Alert.Message.episodeOut cur)] else []),
       [⟨u, un, t, tn, some nid, dn⟩])
    ∧ dn ≠ env.now.trunc := by
  constructor
  · have heid2 : (eid == "") = false := beq_eq_false_iff_ne.mpr heid
    have hnid2 : (nid == "") = false := beq_eq_false_iff_ne.mpr hnid
    have hrawn2 : (rawn == "") = false := beq_eq_false_iff_ne.mpr hrawnne
    simp only [Alert.notify, Database.query_released, List.filter_cons,
      List.filter_nil, beq_self_eq_true, if_true, List.map_cons, List.map_nil,
      Alert.notify_loop, Alert.notify_row, pyTruthy, heid2, Bool.not_false,
      hcur, hrawc, hdc, Alert.update_episode, hnext, hnid2, hnd, hrawn,
      Option.getD_some, hrawn2, hmatch, Bool.and_self, hdn]
    cases hq : dc == env.now.trunc <;>
      simp [Alert.notify_loop, Database.update, Database.keyMatch, hq, hnid]
  · intro hEq
    rw [hEq] at hfut
    rw [DateTime.ltb_self] at hfut
    exact Bool.false_ne_true hfut

set_option maxHeartbeats 2000000 in
/-- Witness for the amended C3 at the concrete series scenario. -/
theorem notify_series_update_inst :
    Alert.notify envSeries
        [⟨"u1", "n1", "t1", "T1", some "e1", envSeries.now.trunc⟩] =
      (Sum.inr (if (⟨⟨2024, 6, 15⟩, 0⟩ : DateTime) == envSeries.now.trunc
                then [("u1", Alert.Message.episodeOut curSeries)] else []),
       [⟨"u1", "n1", "t1", "T1", some "e2", ⟨⟨2024, 6, 22⟩, 0⟩⟩])
    ∧ (⟨⟨2024, 6, 22⟩, 0⟩ : DateTime) ≠ envSeries.now.trunc :=
  notify_series_update_emits_iff_current_today envSeries "u1" "n1" "t1" "T1"
    "e1" "e2" "15 Jun 2024" "22 Jun 2024" curSeries ⟨"e2", some "22 Jun 2024", none⟩
    ⟨⟨2024, 6, 15⟩, 0⟩ ⟨⟨2024, 6, 22⟩, 0⟩
    (by decide) (by decide) (by decide) (by decide) (by decide) (by decide)
    (by decide) (by decide) (by decide) (by decide) (by decide) (by decide)

/-- C4: for every movie (no season map) whose first clean USA release
date entry passes the pattern and parses, enable appends exactly one new
row with an absent episode_id and the parsed date and returns the
success status when the date is strictly in the future; otherwise it
writes nothing and reports the release date. -/
theorem enable_movie_future_inserts_once
    (env : Env) (uid un tid : String) (t : TitleMain) (rds : List ReleaseInfo)
    (d0 : String) (ds : List String) (d : DateTime) (db : Db)
    (hmain : env.getMovieMain tid = some t)
    (hseasons : seasonsTruthy t.seasons = false)
    (hrel : env.getReleaseInfo tid = some (some rds))
    (hne : rds.isEmpty = false)
    (husa : Alert.usaDates rds = d0 :: ds)
    (hmatch : matchMovieDate d0 = true)
    (hparse : strptimeFullMonth d0 = some d) :
    (env.now.ltb d = true →
      Alert.enable env uid un tid db =
        ("Alert enabled.", db ++ [⟨uid, un, tid, t.long_imdb_title, none, d⟩]))
    ∧ (env.now.ltb d = false →
      Alert.enable env uid un tid db = ("Released on " ++ d0 ++ " in USA", db)) := by
  constructor <;> intro hfut <;>
    simp [Alert.enable, hmain, hseasons, hrel, Alert.get_movie_release_date,
      hne, husa, hmatch, hparse, hfut, Database.insert]

/-- Witness for C4 at the concrete movie environment. -/
theorem enable_movie_future_inserts_once_inst :
    Alert.enable envMovie "u" "n" "t" [] =
      ("Alert enabled.", [⟨"u", "n", "t", "T", none, ⟨⟨2030, 6, 15⟩, 0⟩⟩]) :=
  (enable_movie_future_inserts_once envMovie "u" "n" "t" ⟨"T", none⟩
    [⟨"USA\n", "15 June 2030", none⟩] "15 June 2030" [] ⟨⟨2030, 6, 15⟩, 0⟩ []
    (by decide) (by decide) (by decide) (by decide) (by decide) (by decide)
    (by decide)).1 (by decide)

/-- C5: when the next-episode link exists but the next episode air date
is absent or fails validation, the update writes, for every row matching
the key, a release date of today plus exactly seven days at midnight and
keeps the current (not next) episode id as placeholder, leaving the
user_id and title_id columns of every row untouched. -/
theorem update_episode_placeholder_week_delay
    (env : Env) (uid tid nid : String) (cur nd : Episode) (db : Db)
    (hnext : cur.next_episode = some nid) (hnid : nid ≠ "")
    (hnd : env.getEpisode nid = some nd)
    (hbad : pyTruthy nd.original_air_date = false ∨
            matchEpisodeDate (nd.original_air_date.getD "") = false) :
    Alert.update_episode env uid tid cur db =
      (some cur.id, Database.update db (some cur.id) ((env.now.addDays 7).trunc) uid tid)
    ∧ (env.now.addDays 7).trunc = ⟨env.now.date.addDays 7, 0⟩
    ∧ (Alert.update_episode env uid tid cur db).2.map
        (fun r => (r.user_id, r.title_id)) =
        db.map (fun r => (r.user_id, r.title_id))
    ∧ ∀ r ∈ (Alert.update_episode env uid tid cur db).2,
        Database.keyMatch uid tid r = true →
        r.episode_id = some cur.id ∧ r.release_date = ⟨env.now.date.addDays 7, 0⟩ := by
  have hnid2 : (nid == "") = false := beq_eq_false_iff_ne.mpr hnid
  have hguard : (pyTruthy nd.original_air_date &&
      matchEpisodeDate (nd.original_air_date.getD "")) = false := by
    rcases hbad with hb | hb <;> simp [hb]
  have htr : (env.now.addDays 7).trunc = (⟨env.now.date.addDays 7, 0⟩ : DateTime) := by
    simp [DateTime.addDays, DateTime.trunc]
  have hmain : Alert.update_episode env uid tid cur db =
      (some cur.id, Database.update db (some cur.id) ((env.now.addDays 7).trunc) uid tid) := by
    simp only [Alert.update_episode, hnext]
    rw [hnid2]
    simp only [Bool.false_eq_true, if_false]
    rw [hnd]
    simp only [hguard, Bool.false_eq_true, if_false]
  refine ⟨hmain, htr, ?_, ?_⟩
  · rw [hmain]
    simp only [Database.update, List.map_map]
    apply List.map_congr_left
    intro a _
    by_cases hk : Database.keyMatch uid tid a = true
    · rw [Function.comp_apply, if_pos hk]
    · rw [Function.comp_apply, if_neg hk]
  · rw [hmain, htr]
    intro r hr hk
    simp only [Database.update] at hr
    rcases List.mem_map.mp hr with ⟨a, _, heq⟩
    by_cases hka : Database.keyMatch uid tid a = true
    · rw [if_pos hka] at heq
      rw [← heq]
      exact ⟨rfl, rfl⟩
    · rw [if_neg hka] at heq
      rw [← heq] at hk
      exact absurd hk hka

/-- Witness for C5 at the concrete series scenario (episode e3 exists
and has no air date; the placeholder points back to the current e1). -/
theorem update_episode_placeholder_week_delay_inst :
    Alert.update_episode envSeries "u1" "t1" ⟨"e1", some "15 Jun 2024", some "e3"⟩
        [recSeriesDue] =
      (some "e1", Database.update [recSeriesDue] (some "e1")
        ((envSeries.now.addDays 7).trunc) "u1" "t1") :=
  (update_episode_placeholder_week_delay envSeries "u1" "t1" "e3"
    ⟨"e1", some "15 Jun 2024", some "e3"⟩ ⟨"e3", none, none⟩ [recSeriesDue]
    (by decide) (by decide) (by decide) (Or.inl (by decide))).1

/-- C10: every release date ever stored by the movie subscribe path, the
series subscribe path, or either branch of the tick episode update
carries a time of day of exactly midnight — every row of the resulting
table is either an old row or carries tod = 0.  This is what lets the
due-record query, which compares stored dates for equality against
today at midnight, ever match. -/
theorem stored_release_dates_midnight :
    (∀ (env : Env) (rds : Option (List ReleaseInfo)) (uid un tid tn : String)
        (db : Db) (r : AlertRecord),
        r ∈ (Alert.get_movie_release_date env rds uid un tid tn db).2 →
        r ∈ db ∨ r.release_date.tod = 0)
  ∧ (∀ (env : Env) (eps : Option (List (Nat × List (Nat × Episode))))
        (uid un tid tn : String) (db : Db) (r : AlertRecord),
        r ∈ (Alert.get_episode_release_date env eps uid un tid tn db).2 →
        r ∈ db ∨ r.release_date.tod = 0)
  ∧ (∀ (env : Env) (uid tid : String) (cur : Episode) (db : Db) (r : AlertRecord),
        r ∈ (Alert.update_episode env uid tid cur db).2 →
        r ∈ db ∨ r.release_date.tod = 0) := by
  refine ⟨?_, ?_, ?_⟩
  · intro env rds uid un tid tn db r h
    cases rds with
    | none =>
      simp only [Alert.get_movie_release_date] at h
      exact Or.inl h
    | some l =>
      by_cases he : l.isEmpty = true
      · simp only [Alert.get_movie_release_date, he, if_true] at h
        exact Or.inl h
      · cases hu : Alert.usaDates l with
        | nil =>
          simp only [Alert.get_movie_release_date, he, if_false, hu] at h
          exact Or.inl h
        | cons d0 ds =>
          by_cases hm : matchMovieDate d0 = true
          · cases hp : strptimeFullMonth d0 with
            | none =>
              simp only [Alert.get_movie_release_date, he, hu, hm, hp, if_true] at h
              exact Or.inl h
            | some d =>
              by_cases hlt : env.now.ltb d = true
              · simp only [Alert.get_movie_release_date, he, hu, hm, hp, hlt,
                  if_true, Database.insert] at h
                rcases List.mem_append.mp h with h2 | h2
                · exact Or.inl h2
                · right
                  rw [List.mem_singleton.mp h2]
                  exact strptimeWith_tod _ _ _ hp
              · simp only [Alert.get_movie_release_date, he, hu, hm, hp, hlt,
                  if_true, if_false] at h
                exact Or.inl h
          · simp only [Alert.get_movie_release_date, he, hu, hm] at h
            exact Or.inl h
  · intro env eps uid un tid tn db r h
    cases eps with
    | none =>
      simp only [Alert.get_episode_release_date] at h
      exact Or.inl h
    | some l =>
      cases l with
      | nil =>
        simp only [Alert.get_episode_release_date] at h
        exact Or.inl h
      | cons p rest =>
        obtain ⟨season, epl⟩ := p
        simp only [Alert.get_episode_release_date] at h
        exact episode_scan_mem env uid un tid tn season epl.length epl none db r h
  · intro env uid tid cur db r h
    cases hne : cur.next_episode with
    | none =>
      simp only [Alert.update_episode, hne, Database.delete] at h
      exact Or.inl (List.mem_filter.mp h).1
    | some nid =>
      by_cases h0 : (nid == "") = true
      · simp only [Alert.update_episode, hne, h0, if_true, Database.delete] at h
        exact Or.inl (List.mem_filter.mp h).1
      · cases hge : env.getEpisode nid with
        | none =>
          simp only [Alert.update_episode, hne, h0, hge] at h
          exact Or.inl h
        | some nd =>
          by_cases hg : (pyTruthy nd.original_air_date &&
              matchEpisodeDate (nd.original_air_date.getD "")) = true
          · cases hp : strptimeAbbrMonth
                (removeAllChar ',' (nd.original_air_date.getD "")) with
            | none =>
              simp only [Alert.update_episode, hne, h0, hge, hg, hp, if_true] at h
              exact Or.inl h
            | some rel =>
              simp only [Alert.update_episode, hne, h0, hge, hg, hp, if_true] at h
              rcases mem_update _ _ _ _ _ _ h with h2 | h2
              · exact Or.inl h2
              · right
                rw [h2]
                exact strptimeWith_tod _ _ _ hp
          · simp only [Alert.update_episode, hne, h0, hge, hg] at h
            rcases mem_update _ _ _ _ _ _ h with h2 | h2
            · exact Or.inl h2
            · right
              rw [h2]
              rfl

/-- Witness for C10 at the concrete movie insert. -/
theorem stored_release_dates_midnight_inst :
    (⟨"u", "n", "t", "T", none, ⟨⟨2030, 6, 15⟩, 0⟩⟩ : AlertRecord) ∈ ([] : Db) ∨
    (⟨"u", "n", "t", "T", none, ⟨⟨2030, 6, 15⟩, 0⟩⟩ : AlertRecord).release_date.tod = 0 :=
  stored_release_dates_midnight.1 envNoProvider (some [⟨"USA\n", "15 June 2030", none⟩])
    "u" "n" "t" "T" [] ⟨"u", "n", "t", "T", none, ⟨⟨2030, 6, 15⟩, 0⟩⟩ (by decide)

end IMDbot

